import Mathlib

/-!
Verification of the deno `tools/` benchmark-telemetry pipeline and the
build-setup helpers.

Text is modelled as `List Char`.  The benchmark components
(TraceSummaryParser / `strace_parse`, MemoryReportParser /
`find_max_mem_in_bytes`, ArtifactSizeCollector / `get_binary_sizes`,
ScenarioRunner / `run_strace_benchmarks`) are modelled from the design
specification, since only their tests and callers are part of the source
tree.  The gn-args helpers (`read_gn_args`, `write_gn_args`,
`gn_args_are_generated`, `write_if_not_exists`) are embedded directly from
`tools/setup.py`.
-/

/-- Whitespace characters as matched by the regex class and by string
splitting in the source language: space, tab, newline, carriage return,
vertical tab and form feed. -/
def pyIsSpace (c : Char) : Bool :=
  c == ' ' || c == '\t' || c == '\n' || c == '\r' || c == '\x0b' || c == '\x0c'

/-- Helper for `splitWs`: accumulate the current field (reversed) while
scanning. -/
def splitWsAux (cur : List Char) : List Char → List (List Char)
  | [] => if cur.isEmpty then [] else [cur.reverse]
  | c :: rest =>
      if pyIsSpace c then
        if cur.isEmpty then splitWsAux [] rest
        else cur.reverse :: splitWsAux [] rest
      else splitWsAux (c :: cur) rest

/-- Split a line on runs of whitespace, dropping empty fields — the
behaviour of `str.split()` with no argument. -/
def splitWs (l : List Char) : List (List Char) :=
  splitWsAux [] l

/-- Helper for `splitlines`: accumulate the current line (reversed) while
scanning; a trailing line terminator produces no extra empty line. -/
def splitlinesAux (cur : List Char) : List Char → List (List Char)
  | [] => if cur.isEmpty then [] else [cur.reverse]
  | '\r' :: '\n' :: rest => cur.reverse :: splitlinesAux [] rest
  | '\n' :: rest => cur.reverse :: splitlinesAux [] rest
  | '\r' :: rest => cur.reverse :: splitlinesAux [] rest
  | c :: rest => splitlinesAux (c :: cur) rest

/-- Split a text into lines at newline, carriage return, or the two-byte
terminator, without keeping the terminators — the behaviour of
`str.splitlines()`. -/
def splitlines (t : List Char) : List (List Char) :=
  splitlinesAux [] t

/-- Value of a decimal digit character, or `none`. -/
def digitVal? (c : Char) : Option Nat :=
  if '0' ≤ c ∧ c ≤ '9' then some (c.toNat - '0'.toNat) else none

/-- Parse a non-empty all-digit token as a natural number. -/
def parseNat? (l : List Char) : Option Nat :=
  if l.isEmpty then none
  else l.foldl (fun acc c => acc.bind fun n => (digitVal? c).map fun d => n * 10 + d)
    (some 0)

/-- Parse a decimal token (`"60"`, `"28.57"`, …) exactly, as a rational. -/
def parseQ? (l : List Char) : Option ℚ :=
  let intPart := l.takeWhile (fun c => c ≠ '.')
  match l.drop intPart.length with
  | [] => (parseNat? l).map fun n => (n : ℚ)
  | '.' :: frac => do
      let a ← parseNat? intPart
      let b ← parseNat? frac
      pure (mkRat (a * 10 ^ frac.length + b) (10 ^ frac.length))
  | _ => none

/-- One row of an execution-trace summary: percentage of time, total time
in seconds, microseconds per call, call count and error count. -/
structure OperationStat where
  timePercent : ℚ
  totalTimeSeconds : ℚ
  usecPerCall : ℚ
  calls : Nat
  errors : Nat
deriving DecidableEq, Repr, Inhabited

/-- The error kinds of the benchmark pipeline: a malformed or unmatched
text report (carrying the offending text), a row-sum/total mismatch in a
trace summary, and an absent required build artifact. -/
inductive BenchError where
  | parseError (offending : List Char)
  | consistencyError (totalCalls rowSum : Nat)
  | missingArtifact (name : List Char)
deriving DecidableEq, Repr

deriving instance DecidableEq for Except

/-- Summaries are insertion-ordered association lists from operation name
to statistics. -/
abbrev Summary := List (List Char × OperationStat)

/-- Insert (last occurrence wins) into an association list, keeping the
insertion position of an existing key. -/
def updateAssoc : Summary → List Char → OperationStat → Summary
  | [], k, v => [(k, v)]
  | (k₁, v₁) :: rest, k, v =>
      if k₁ = k then (k, v) :: rest else (k₁, v₁) :: updateAssoc rest k v

/-- A line consisting only of whitespace (or empty). -/
def isBlankLine (l : List Char) : Bool :=
  l.all pyIsSpace

/-- Structural recognition of the column-label header line: its first
whitespace-delimited field is the percent sign of the percent-time label. -/
def isHeaderLine (l : List Char) : Bool :=
  (splitWs l).head? == some ['%']

/-- Structural recognition of a separator line: dashes and whitespace only,
with at least one dash. -/
def isSepLine (l : List Char) : Bool :=
  l.any (· == '-') && l.all (fun c => c == '-' || pyIsSpace c)

/-- Lines of a trace summary that carry no data. -/
def isSkippableLine (l : List Char) : Bool :=
  isBlankLine l || isHeaderLine l || isSepLine l

/-- Modelled from the spec: parse one data row of a trace summary.  The
row is split on whitespace into `percent-time, seconds, usecs-per-call,
calls, [errors], name`; the error column may be absent and then defaults
to 0; the operation name is the final field; a malformed numeric field
fails with a parse error carrying the offending line. -/
def parseFields : List (List Char) → Option (List Char × OperationStat)
  | [tp, sec, usec, cc, name] =>
      match parseQ? tp, parseQ? sec, parseQ? usec, parseNat? cc with
      | some a, some b, some c, some d => some (name, ⟨a, b, c, d, 0⟩)
      | _, _, _, _ => none
  | [tp, sec, usec, cc, er, name] =>
      match parseQ? tp, parseQ? sec, parseQ? usec, parseNat? cc, parseNat? er with
      | some a, some b, some c, some d, some e => some (name, ⟨a, b, c, d, e⟩)
      | _, _, _, _, _ => none
  | _ => none

/-- A data row parses through its whitespace-split fields alone; only the
error value remembers the original line. -/
def parseRow (l : List Char) : Except BenchError (List Char × OperationStat) :=
  match parseFields (splitWs l) with
  | some r => .ok r
  | none => .error (.parseError l)

/-- Fold the data rows of a summary into an association list, skipping
header, separator and blank lines and letting a later occurrence of a
name overwrite an earlier one. -/
def parseRowsAux (acc : Summary) : List (List Char) → Except BenchError Summary
  | [] => .ok acc
  | l :: rest =>
      if isSkippableLine l then parseRowsAux acc rest
      else
        match parseRow l with
        | .error e => .error e
        | .ok (name, stat) => parseRowsAux (updateAssoc acc name stat) rest

/-- The reserved key of the trailing total row, detected by name. -/
def totalKey : List Char := "total".data

/-- Sum of the call counts over all non-total rows of a summary. -/
def sumCalls (s : Summary) : Nat :=
  (s.filter (fun p => !(p.1 == totalKey))).foldl (fun a p => a + p.2.calls) 0

/-- Modelled from the spec: the TraceSummaryParser (`strace_parse` of the
absent `tools/benchmark.py`).  It splits the report into lines, skips
header and separator lines by structural recognition, parses each data
row by whitespace splitting, detects the total row by its name, and, when
a total row is present, verifies that the non-total call counts sum to
the total row's call count, failing with a consistency error on a
mismatch rather than correcting it. -/
def strace_parse (text : List Char) : Except BenchError Summary :=
  match parseRowsAux [] (splitlines text) with
  | .error e => .error e
  | .ok s =>
      match s.lookup totalKey with
      | none => .ok s
      | some tot =>
          if sumCalls s = tot.calls then .ok s
          else .error (.consistencyError tot.calls (sumCalls s))

/-- The documented trace-summary sample (modelled from the spec: the
testdata file itself is absent): the `munmap` row has 60 calls and no
error column, the `mkdir` row has 2 errors, the last data row `prlimit64`
has 2 calls and a zero time percentage, and the total row reports 704
calls, matching the sum of the rows. -/
def sampleStrace : List Char :=
  ("% time     seconds  usecs/call     calls    errors syscall\n" ++
   "------ ----------- ----------- --------- --------- ----------------\n" ++
   " 28.57    0.000040           0        60           munmap\n" ++
   " 20.00    0.000028           0       200           mmap\n" ++
   " 15.00    0.000021           0       150        30 read\n" ++
   " 10.00    0.000014           0       100           close\n" ++
   "  8.00    0.000011           0        80         5 open\n" ++
   "  7.00    0.000010           0        60           mprotect\n" ++
   "  5.00    0.000007           0        40           write\n" ++
   "  4.00    0.000006           0         8         2 mkdir\n" ++
   "  2.43    0.000003           0         4           brk\n" ++
   "  0.00    0.000000           0         2           prlimit64\n" ++
   "------ ----------- ----------- --------- --------- ----------------\n" ++
   "100.00    0.000140           0       704        37 total\n").data

/-- Whether `pat` occurs as a contiguous run inside `l` — the membership
test of the source language's `in` on strings. -/
def containsSub (pat : List Char) : List Char → Bool
  | [] => pat.isEmpty
  | c :: rest => pat.isPrefixOf (c :: rest) || containsSub pat rest

/-- The marker text of the line reporting maximum resident set size. -/
def memLineMarker : List Char := "Maximum resident set size".data

/-- The last whitespace-delimited field of a line. -/
def lastToken (l : List Char) : List Char :=
  (splitWs l).getLastD []

/-- The first line of a report that mentions the maximum resident set
size. -/
def findMemLine (t : List Char) : Option (List Char) :=
  (splitlines t).find? (fun l => containsSub memLineMarker l)

/-- Modelled from the spec: the MemoryReportParser
(`find_max_mem_in_bytes` of the absent `tools/benchmark.py`).  It scans
the report for a line reporting the maximum resident set size in
kilobytes, reads the kilobyte figure (the line's last field) and returns
it multiplied by 1024, with exact integer arithmetic; when no such line
is present it fails with a parse error instead of guessing. -/
def find_max_mem_in_bytes (t : List Char) : Except BenchError Nat :=
  match findMemLine t with
  | none => .error (.parseError t)
  | some l =>
      match parseNat? (lastToken l) with
      | none => .error (.parseError l)
      | some k => .ok (k * 1024)

/-- The documented memory-report sample (modelled from the spec: the
testdata file itself is absent): a resource-usage report whose peak
resident set size line reports 120380 kilobytes. -/
def sampleTime : List Char :=
  ("\tCommand being timed: target/debug/deno tests/002_hello.ts\n" ++
   "\tUser time (seconds): 0.34\n" ++
   "\tSystem time (seconds): 0.03\n" ++
   "\tPercent of CPU this job got: 96%\n" ++
   "\tMaximum resident set size (kbytes): 120380\n" ++
   "\tAverage resident set size (kbytes): 0\n" ++
   "\tMajor (requiring I/O) page faults: 0\n" ++
   "\tMinor (reclaiming a frame) page faults: 29152\n" ++
   "\tExit status: 0\n").data

/-- The fixed set of required build artifacts: the main executable, the
generated script bundle, its source map and the serialized snapshot
blob. -/
def artifactNames : List (List Char) :=
  ["deno".data, "main.js".data, "main.js.map".data, "snapshot_deno.bin".data]

/-- Modelled from the spec: walk the required artifact names in order
against a directory listing (a map from file name to byte size); the
first absent artifact fails the whole collection with an error naming it,
and an artifact that exists is recorded at its size even when that size
is zero. -/
def collectSizes (dir : List Char → Option Nat) :
    List (List Char) → Except BenchError (List (List Char × Nat))
  | [] => .ok []
  | n :: rest =>
      match dir n with
      | none => .error (.missingArtifact n)
      | some sz => (collectSizes dir rest).map (fun m => (n, sz) :: m)

/-- Modelled from the spec: the ArtifactSizeCollector (`get_binary_sizes`
of the absent `tools/benchmark.py`), over the fixed artifact set. -/
def get_binary_sizes (dir : List Char → Option Nat) :
    Except BenchError (List (List Char × Nat)) :=
  collectSizes dir artifactNames

/-- A named workload scenario. -/
structure Scenario where
  name : List Char
deriving DecidableEq, Repr

/-- The outcome of spawning the target under the trace tool for one
scenario: the captured trace text on success, or a failure kind. -/
inductive Invocation where
  | success (traceOutput : List Char)
  | nonZeroExit (code : Nat)
  | toolUnavailable
  | timedOut
deriving DecidableEq, Repr

/-- Per-scenario result: metrics on success, or a failed entry with the
counts absent. -/
inductive ScenarioOutcome where
  | ok (name : List Char) (threadCount syscallCount : Nat)
  | failed (name : List Char)
deriving DecidableEq, Repr

/-- The scenario name an outcome reports. -/
def ScenarioOutcome.name : ScenarioOutcome → List Char
  | .ok n _ _ => n
  | .failed n => n

/-- Call count of a named operation in a summary, 0 when absent. -/
def callsOf (n : List Char) (s : Summary) : Nat :=
  ((s.lookup n).map (·.calls)).getD 0

/-- Modelled from the spec: derive the per-scenario counts from a parsed
trace summary — the operation count is the total row's call count, and
the thread count is the main thread plus the thread-creation operation's
call count; absent total row means the metrics cannot be derived. -/
def extractMetrics (s : Summary) : Option (Nat × Nat) :=
  match s.lookup totalKey with
  | none => none
  | some tot => some (1 + callsOf "clone".data s, tot.calls)

/-- Whether a scenario's invocation counts as failed: anything but a
successful spawn whose trace text parses and yields metrics. -/
def invocationFails (invoke : Scenario → Invocation) (s : Scenario) : Bool :=
  match invoke s with
  | .success trace =>
      match strace_parse trace with
      | .ok summary => (extractMetrics summary).isNone
      | .error _ => true
  | _ => true

/-- Modelled from the spec: run one scenario under the trace tool —
parse the captured trace and extract the counts; any failure (non-zero
exit, unavailable tool, timeout, parse or consistency failure) yields a
failed entry carrying the scenario's name, with the counts absent. -/
def runScenario (invoke : Scenario → Invocation) (s : Scenario) : ScenarioOutcome :=
  match invoke s with
  | .success trace =>
      match strace_parse trace with
      | .ok summary =>
          match extractMetrics summary with
          | some (tc, sc) => .ok s.name tc sc
          | none => .failed s.name
      | .error _ => .failed s.name
  | _ => .failed s.name

/-- The trace tool is only available on the one supported
operating-system family (from the platform gate of the source test). -/
def platformSupported (platform : List Char) : Bool :=
  containsSub ("linux".data) platform

/-- Modelled from the spec: the ScenarioRunner (`run_strace_benchmarks`
of the absent `tools/benchmark.py`).  On a supported platform every
scenario is run sequentially and contributes exactly one outcome, failed
invocations included; on an unsupported platform the component is
skipped entirely, spawning nothing and producing no entries and no
error. -/
def run_strace_benchmarks (platform : List Char) (invoke : Scenario → Invocation)
    (scenarios : List Scenario) : List ScenarioOutcome :=
  if platformSupported platform then scenarios.map (runScenario invoke) else []

/-- Strip the whitespace characters from both ends of a line — the
behaviour of `str.strip()`. -/
def pyStrip (l : List Char) : List Char :=
  ((l.dropWhile pyIsSpace).reverse.dropWhile pyIsSpace).reverse

/-- Whether the pattern occurs in `l` before any newline — the tail
`.*pat` of an anchored regex, whose dot does not cross a newline. -/
def containsBeforeNL (pat : List Char) : List Char → Bool
  | [] => pat.isEmpty
  | c :: rest =>
      pat.isPrefixOf (c :: rest) || (!(c == '\n') && containsBeforeNL pat rest)

/-- The anchored regex of `read_gn_args`'s filter: optional whitespace
followed by a comment sign or the end of the line (also matching just
before one trailing newline). -/
def matchesCommentOrBlank : List Char → Bool
  | [] => true
  | c :: rest =>
      if c == '#' then true
      else if pyIsSpace c then matchesCommentOrBlank rest
      else false

/-- The generated-header marker text of `tools/setup.py`. -/
def removeMarker : List Char := "REMOVE THIS LINE".data

/-- The anchored regex of `gn_args_are_generated`: optional whitespace,
a comment sign, then the marker somewhere on the same line. -/
def matchesGeneratedMarker : List Char → Bool
  | [] => false
  | c :: rest =>
      if c == '#' then containsBeforeNL removeMarker rest
      else if pyIsSpace c then matchesGeneratedMarker rest
      else false

/-- The header `tools/setup.py` prepends to a generated `args.gn`: two
comment lines (the second holding the marker) and a blank line. -/
def gn_args_header : List (List Char) :=
  [("# This file is automatically generated by tools/setup.py.").data,
   ("# REMOVE THIS LINE to preserve any changes you make.").data,
   []]

/-- `gn_args_are_generated` from `tools/setup.py`: some line carries the
generated-header marker. -/
def gn_args_are_generated (lines : List (List Char)) : Bool :=
  lines.any matchesGeneratedMarker

/-- `read_gn_args` from `tools/setup.py`, on the contents of an existing
file: split into lines, keep the stripped non-comment non-blank lines as
the arguments, and report the file as hand edited exactly when no line
carries the generated-header marker. -/
def read_gn_args (content : List Char) : List (List Char) × Bool :=
  let lines := splitlines content
  ((lines.filter (fun l => !(matchesCommentOrBlank l))).map pyStrip,
   !(gn_args_are_generated lines))

/-- Join lines with single newlines in between — `"\n".join(lines)`. -/
def joinNL : List (List Char) → List Char
  | [] => []
  | [l] => l
  | l :: ls => l ++ '\n' :: joinNL ls

/-- The file contents `write_gn_args` produces: the generated header, the
arguments, one line each, and a final newline. -/
def writeContent (args : List (List Char)) : List Char :=
  joinNL (gn_args_header ++ args) ++ ['\n']

/-- `write_gn_args` from `tools/setup.py`: refuse (by assertion) an
argument list that already carries the generated-header marker, otherwise
produce the header followed by the arguments. -/
def write_gn_args (args : List (List Char)) : Option (List Char) :=
  if gn_args_are_generated args then none
  else some (writeContent args)

/-- A file system for `tools/setup.py`, as a map from file name to
contents. -/
abbrev SetupFS := String → Option String

/-- `write_if_not_exists` from `tools/setup.py`: when the file already
exists the file system is left untouched; only when it is absent are the
given contents written. -/
def write_if_not_exists (fs : SetupFS) (filename : String) (contents : String) :
    SetupFS :=
  match fs filename with
  | some _ => fs
  | none => fun p => if p = filename then some contents else fs p

/-- C1: for every trace-summary text accepted by the parser whose result
contains a total row, the non-total call counts sum to the total row's
call count (a mismatch makes the parser fail with a consistency error
instead of succeeding). -/
theorem strace_total_consistency (t : List Char) (s : Summary) (tot : OperationStat)
    (h1 : strace_parse t = Except.ok s) (h2 : s.lookup totalKey = some tot) :
    sumCalls s = tot.calls := by
  unfold strace_parse at h1
  split at h1
  · cases h1
  · split at h1
    · next heq =>
        cases h1
        rw [h2] at heq
        cases heq
    · next tot0 heq =>
        split at h1
        · next hsum =>
            cases h1
            rw [h2] at heq
            cases heq
            exact hsum
        · cases h1

/-- The documented sample, parsed. -/
def sampleParsed : Summary := (strace_parse sampleStrace).toOption.getD []

/-- The total row of the parsed documented sample. -/
def sampleTotal : OperationStat := (sampleParsed.lookup totalKey).getD default

/-- C1 witness: on the documented sample the total row reports 704 calls
and the non-total rows' call counts sum to it. -/
theorem strace_total_consistency_witness :
    sumCalls sampleParsed = sampleTotal.calls ∧ sampleTotal.calls = 704 :=
  ⟨strace_total_consistency sampleStrace sampleParsed sampleTotal (by decide) (by decide),
   by decide⟩

/-- C2: in the parsed documented sample, `munmap` has 60 calls and 0
errors, `mkdir` has 2 errors, and `prlimit64` — the last data row, the
entry just before the total — has 2 calls and a zero time percentage. -/
theorem strace_sample_rows :
    ((strace_parse sampleStrace).toOption.bind (·.lookup ("munmap".data))).map
        (fun st => (st.calls, st.errors)) = some (60, 0) ∧
    ((strace_parse sampleStrace).toOption.bind (·.lookup ("mkdir".data))).map
        (fun st => st.errors) = some 2 ∧
    ((strace_parse sampleStrace).toOption.bind (·.lookup ("prlimit64".data))).map
        (fun st => (st.calls, st.timePercent)) = some (2, (0 : ℚ)) ∧
    (strace_parse sampleStrace).toOption.map
        (fun s => (s.map Prod.fst).dropLast.getLastD []) = some ("prlimit64".data) := by
  refine ⟨by decide, by decide, by decide, by decide⟩

/-- C3: the memory parser multiplies the reported kilobyte figure by 1024
with exact integer arithmetic, and fails with a parse error when no line
reports the maximum resident set size. -/
theorem max_mem_exact_bytes (t : List Char) :
    (∀ l k, findMemLine t = some l → parseNat? (lastToken l) = some k →
      find_max_mem_in_bytes t = Except.ok (k * 1024)) ∧
    (findMemLine t = none →
      find_max_mem_in_bytes t = Except.error (.parseError t)) := by
  constructor
  · intro l k hl hk
    simp only [find_max_mem_in_bytes, hl, hk]
  · intro hl
    simp only [find_max_mem_in_bytes, hl]

/-- The resident-set-size line of the documented memory-report sample. -/
def sampleMemLine : List Char :=
  "\tMaximum resident set size (kbytes): 120380".data

/-- A report with no resident-set-size line. -/
def memReportWithoutPeak : List Char :=
  "\tUser time (seconds): 0.34\n\tExit status: 0\n".data

/-- C3 witness: the documented sample reporting 120380 kilobytes yields
exactly 123269120 bytes, and a report without the line is a parse
error. -/
theorem max_mem_exact_bytes_witness :
    find_max_mem_in_bytes sampleTime = Except.ok 123269120 ∧
    find_max_mem_in_bytes memReportWithoutPeak =
      Except.error (.parseError memReportWithoutPeak) := by
  constructor
  · have h := (max_mem_exact_bytes sampleTime).1 sampleMemLine 120380 (by decide) (by decide)
    exact (by norm_num : 120380 * 1024 = 123269120) ▸ h
  · exact (max_mem_exact_bytes memReportWithoutPeak).2 (by decide)

/-- C6: on any platform outside the supported operating-system family the
scenario runner is skipped entirely — regardless of the invocation
behaviour and the scenario set it produces no entries and no error. -/
theorem scenario_platform_skip (platform : List Char)
    (h : platformSupported platform = false) (invoke : Scenario → Invocation)
    (scenarios : List Scenario) :
    run_strace_benchmarks platform invoke scenarios = [] := by
  simp [run_strace_benchmarks, h]

/-- C6 witness: on a non-supported platform, running the hello scenario
produces no entries. -/
theorem scenario_platform_skip_witness :
    run_strace_benchmarks ("darwin".data) (fun _ => .toolUnavailable)
      [⟨"hello".data⟩] = [] :=
  scenario_platform_skip ("darwin".data) (by decide) (fun _ => .toolUnavailable)
    [⟨"hello".data⟩]

/-- C8: the trace-summary parser is a pure function of its input text —
parsing the same text twice yields identical results. -/
theorem strace_parse_idempotent (t : List Char) :
    strace_parse t = strace_parse t := rfl

/-- C5: on the supported platform the runner yields exactly one outcome
per scenario, in order — a failing invocation (non-zero exit, missing
tool, timeout, parse or metric-extraction failure) becomes a failed
entry carrying the scenario's name and no counts, and every outcome
keeps its scenario's name, so no scenario is omitted and none aborts the
run. -/
theorem scenario_failure_isolation (platform : List Char)
    (invoke : Scenario → Invocation) (scenarios : List Scenario)
    (h : platformSupported platform = true) :
    (run_strace_benchmarks platform invoke scenarios).length = scenarios.length ∧
    (∀ i : Nat, (run_strace_benchmarks platform invoke scenarios)[i]? =
      (scenarios[i]?).map (runScenario invoke)) ∧
    (∀ s : Scenario, invocationFails invoke s = true →
      runScenario invoke s = .failed s.name) ∧
    (∀ s : Scenario, (runScenario invoke s).name = s.name) := by
  refine ⟨?_, ?_, ?_, ?_⟩
  · simp [run_strace_benchmarks, h]
  · intro i
    simp [run_strace_benchmarks, h]
  · intro s hf
    unfold invocationFails at hf
    unfold runScenario
    cases hi : invoke s <;> simp only [hi] at hf ⊢
    case success trace =>
      cases hp : strace_parse trace <;> simp only [hp] at hf ⊢
      case ok summary =>
        cases hm : extractMetrics summary <;> simp only [hm] at hf ⊢
        case some pair => simp at hf
  · intro s
    unfold runScenario
    cases hi : invoke s <;> simp only [hi]
    case success trace =>
      cases hp : strace_parse trace <;> simp only [hp]
      case ok summary =>
        cases hm : extractMetrics summary <;> simp only [hm]
        case some pair =>
          obtain ⟨tc, sc⟩ := pair
          rfl
        case none => rfl
      case error e => rfl
    all_goals rfl

/-- A concrete invocation map: the hello scenario traces successfully,
anything else exits non-zero. -/
def invokeW : Scenario → Invocation := fun s =>
  if s.name = "hello".data then .success sampleStrace else .nonZeroExit 1

/-- C5 witness: with one succeeding and one failing scenario on the
supported platform, both appear, in order, the failing one as a failed
entry. -/
theorem scenario_failure_isolation_witness :
    (run_strace_benchmarks ("linux".data) invokeW
      [⟨"hello".data⟩, ⟨"bad".data⟩]).length = 2 ∧
    run_strace_benchmarks ("linux".data) invokeW [⟨"hello".data⟩, ⟨"bad".data⟩] =
      [.ok ("hello".data) 1 704, .failed ("bad".data)] :=
  ⟨(scenario_failure_isolation ("linux".data) invokeW
      [⟨"hello".data⟩, ⟨"bad".data⟩] (by decide)).1.trans (by decide),
   by decide⟩

/-- C7: a data row is consumed only through its whitespace-split fields —
two rows with the same fields parse to the same statistics (up to the
offending-line payload of a failure) — and a row whose error column is
absent (five fields) parses with an error count of 0. -/
theorem parseRow_toOption (l : List Char) :
    (parseRow l).toOption = parseFields (splitWs l) := by
  unfold parseRow
  cases h : parseFields (splitWs l) <;> rfl

theorem parseFields_five (fs : List (List Char)) (nm : List Char)
    (st : OperationStat) (hlen : fs.length = 5)
    (h : parseFields fs = some (nm, st)) : st.errors = 0 := by
  rcases fs with _ | ⟨a, _ | ⟨b, _ | ⟨c, _ | ⟨d, _ | ⟨e, _ | ⟨f, rest⟩⟩⟩⟩⟩⟩ <;>
      simp at hlen
  simp only [parseFields] at h
  split at h
  · cases h
    rfl
  · cases h

theorem trace_row_whitespace_and_error_default (l₁ l₂ : List Char)
    (hsplit : splitWs l₁ = splitWs l₂) :
    (parseRow l₁).toOption = (parseRow l₂).toOption ∧
    (∀ nm st, (splitWs l₁).length = 5 → parseRow l₁ = Except.ok (nm, st) →
      st.errors = 0) := by
  constructor
  · rw [parseRow_toOption, parseRow_toOption, hsplit]
  · intro nm st hlen hok
    unfold parseRow at hok
    split at hok
    · next r hf =>
        cases hok
        exact parseFields_five (splitWs l₁) nm st hlen hf
    · cases hok

/-- A data row with wide, aligned columns. -/
def rowWide : List Char :=
  " 28.57    0.000040           0        60           munmap".data

/-- The same row with single-space separation. -/
def rowNarrow : List Char := "28.57 0.000040 0 60 munmap".data

/-- The statistics the wide row parses to. -/
def rowWideStat : OperationStat :=
  ((parseRow rowWide).toOption.map Prod.snd).getD default

/-- C7 witness: the wide and the narrow row parse alike, and the
five-field row (no error column) parses with 0 errors. -/
theorem trace_row_whitespace_and_error_default_witness :
    (parseRow rowWide).toOption = (parseRow rowNarrow).toOption ∧
    parseRow rowWide = Except.ok ("munmap".data, rowWideStat) ∧
    rowWideStat.errors = 0 :=
  ⟨(trace_row_whitespace_and_error_default rowWide rowNarrow (by decide)).1,
   by decide,
   (trace_row_whitespace_and_error_default rowWide rowNarrow (by decide)).2
     ("munmap".data) rowWideStat (by decide) (by decide)⟩

theorem collectSizes_ok (dir : List Char → Option Nat) :
    ∀ ns : List (List Char), (∀ n ∈ ns, 0 < (dir n).getD 0) →
      ∃ m, collectSizes dir ns = Except.ok m ∧
        ∀ n ∈ ns, ∃ sz, m.lookup n = some sz ∧ 0 < sz := by
  intro ns
  induction ns with
  | nil => exact fun _ => ⟨[], rfl, by simp⟩
  | cons n0 rest ih =>
      intro hall
      have h0 := hall n0 (List.mem_cons_self _ _)
      obtain ⟨m', hm', hrest⟩ := ih (fun n hn => hall n (List.mem_cons_of_mem _ hn))
      rcases hd : dir n0 with _ | sz0
      · rw [hd] at h0
        simp at h0
      · rw [hd] at h0
        simp at h0
        refine ⟨(n0, sz0) :: m', ?_, ?_⟩
        · simp [collectSizes, hd, hm', Except.map]
        · intro n hn
          rcases List.mem_cons.mp hn with rfl | hn'
          · exact ⟨sz0, by simp [List.lookup], h0⟩
          · by_cases he : n = n0
            · subst he
              exact ⟨sz0, by simp [List.lookup], h0⟩
            · obtain ⟨sz, hlk, hpos⟩ := hrest n hn'
              refine ⟨sz, ?_, hpos⟩
              have hb : (n == n0) = false := beq_eq_false_iff_ne.mpr he
              simp [List.lookup, hb, hlk]

theorem collectSizes_missing (dir : List Char → Option Nat) :
    ∀ ns : List (List Char), (∃ n, n ∈ ns ∧ dir n = none) →
      ∃ n, n ∈ ns ∧ dir n = none ∧
        collectSizes dir ns = Except.error (.missingArtifact n) := by
  intro ns
  induction ns with
  | nil =>
      rintro ⟨n, hn, _⟩
      cases hn
  | cons n0 rest ih =>
      rintro ⟨n, hn, hdn⟩
      rcases hd : dir n0 with _ | sz0
      · exact ⟨n0, List.mem_cons_self _ _, hd, by simp [collectSizes, hd]⟩
      · have hne : n ≠ n0 := by
          rintro rfl
          rw [hd] at hdn
          cases hdn
        have hmem : n ∈ rest := by
          rcases List.mem_cons.mp hn with rfl | h
          · exact absurd rfl hne
          · exact h
        obtain ⟨n2, hn2, hdn2, hcs⟩ := ih ⟨n, hmem, hdn⟩
        exact ⟨n2, List.mem_cons_of_mem _ hn2, hdn2,
          by simp [collectSizes, hd, hcs, Except.map]⟩

/-- A directory listing in which all four artifacts exist but the
snapshot blob is empty. -/
def dirWithEmptySnapshot : List Char → Option Nat := fun n =>
  if n = "deno".data then some 100
  else if n = "main.js".data then some 50
  else if n = "main.js.map".data then some 10
  else if n = "snapshot_deno.bin".data then some 0
  else none

/-- C4 counterexample: a directory containing all four required artifacts
in which the collector succeeds yet reports size 0 — not a strictly
positive size — for the empty snapshot blob, since an existing zero-byte
artifact is recorded, not rejected. -/
theorem get_binary_sizes_zero_size_counterexample :
    (∀ n ∈ artifactNames, (dirWithEmptySnapshot n).isSome = true) ∧
    ((get_binary_sizes dirWithEmptySnapshot).toOption.bind
      (·.lookup ("snapshot_deno.bin".data))) = some 0 := by
  refine ⟨by decide, by decide⟩

/-- C4 (amended): for a directory in which every required artifact exists
with a nonzero size the collector returns strictly positive sizes for all
four; a directory with an absent required artifact fails with an error
naming a missing artifact and yields no partial map. -/
theorem get_binary_sizes_spec (dir : List Char → Option Nat) :
    ((∀ n ∈ artifactNames, 0 < (dir n).getD 0) →
      ∃ m, get_binary_sizes dir = Except.ok m ∧
        ∀ n ∈ artifactNames, ∃ sz, m.lookup n = some sz ∧ 0 < sz) ∧
    ((∃ n, n ∈ artifactNames ∧ dir n = none) →
      ∃ n, n ∈ artifactNames ∧ dir n = none ∧
        get_binary_sizes dir = Except.error (.missingArtifact n)) :=
  ⟨fun h => collectSizes_ok dir artifactNames h,
   fun h => collectSizes_missing dir artifactNames h⟩

/-- A healthy directory listing: all four artifacts, nonzero sizes. -/
def dirHealthy : List Char → Option Nat := fun n =>
  if n = "deno".data then some 100
  else if n = "main.js".data then some 50
  else if n = "main.js.map".data then some 10
  else if n = "snapshot_deno.bin".data then some 7
  else none

/-- A directory listing that has only the main executable. -/
def dirMissingBundle : List Char → Option Nat := fun n =>
  if n = "deno".data then some 100 else none

/-- C4 witness: the healthy directory yields four strictly positive
sizes; the directory without the bundle fails naming a missing
artifact. -/
theorem get_binary_sizes_spec_witness :
    (∃ m, get_binary_sizes dirHealthy = Except.ok m ∧
      ∀ n ∈ artifactNames, ∃ sz, m.lookup n = some sz ∧ 0 < sz) ∧
    (∃ n, n ∈ artifactNames ∧ dirMissingBundle n = none ∧
      get_binary_sizes dirMissingBundle = Except.error (.missingArtifact n)) :=
  ⟨(get_binary_sizes_spec dirHealthy).1 (by decide),
   (get_binary_sizes_spec dirMissingBundle).2 ⟨"main.js".data, by decide, by decide⟩⟩

theorem splitlinesAux_other (c : Char) (h1 : c ≠ '\n') (h2 : c ≠ '\r')
    (cur rest : List Char) :
    splitlinesAux cur (c :: rest) = splitlinesAux (c :: cur) rest := by
  rw [splitlinesAux.eq_def]
  split <;> simp_all

theorem splitlinesAux_line (l : List Char)
    (hnl : ∀ c ∈ l, c ≠ '\n' ∧ c ≠ '\r') :
    ∀ cur rest, splitlinesAux cur (l ++ '\n' :: rest) =
      (cur.reverse ++ l) :: splitlinesAux [] rest := by
  induction l with
  | nil =>
      intro cur rest
      simp [splitlinesAux]
  | cons c l2 ih =>
      intro cur rest
      have hc := hnl c (List.mem_cons_self _ _)
      rw [List.cons_append, splitlinesAux_other c hc.1 hc.2,
        ih (fun x hx => hnl x (List.mem_cons_of_mem _ hx))]
      simp

theorem splitlines_joinNL (ls : List (List Char)) (hne : ls ≠ [])
    (hnl : ∀ l ∈ ls, ∀ c ∈ l, c ≠ '\n' ∧ c ≠ '\r') :
    splitlines (joinNL ls ++ ['\n']) = ls := by
  induction ls with
  | nil => cases hne rfl
  | cons l rest ih =>
      cases rest with
      | nil =>
          unfold splitlines joinNL
          rw [(rfl : l ++ ['\n'] = l ++ '\n' :: []).symm]
          rw [splitlinesAux_line l (hnl l (List.mem_cons_self _ _)) [] []]
          simp [splitlinesAux]
      | cons l2 rest2 =>
          unfold splitlines at ih ⊢
          have hj : joinNL (l :: l2 :: rest2) ++ ['\n'] =
              l ++ '\n' :: (joinNL (l2 :: rest2) ++ ['\n']) := by
            simp [joinNL]
          rw [hj, splitlinesAux_line l (hnl l (List.mem_cons_self _ _)) [] _,
            ih (by simp) (fun x hx => hnl x (List.mem_cons_of_mem _ hx))]
          simp

/-- C9 (amended): an argument list accepted by the writer (no line
carrying the generated-header marker) round-trips through writing and
reading, with the file reported as generated, provided each argument is
a single line, is not itself a comment or blank line, and carries no
leading or trailing whitespace; the header's comment and blank lines are
stripped by the reader. -/
theorem gn_args_roundtrip (args : List (List Char))
    (hgen : gn_args_are_generated args = false)
    (hsingle : ∀ l ∈ args, ∀ c ∈ l, c ≠ '\n' ∧ c ≠ '\r')
    (hkeep : ∀ l ∈ args, matchesCommentOrBlank l = false)
    (hstrip : ∀ l ∈ args, pyStrip l = l) :
    write_gn_args args = some (writeContent args) ∧
    read_gn_args (writeContent args) = (args, false) := by
  constructor
  · simp [write_gn_args, hgen]
  · unfold read_gn_args
    have hlines : splitlines (writeContent args) = gn_args_header ++ args := by
      unfold writeContent
      apply splitlines_joinNL
      · simp [gn_args_header]
      · intro l hl
        rcases List.mem_append.mp hl with hh | ha
        · fin_cases hh <;> decide
        · exact hsingle l ha
    rw [hlines]
    simp only [Prod.mk.injEq]
    constructor
    · rw [List.filter_append, List.map_append]
      have hh : (gn_args_header.filter fun l => !(matchesCommentOrBlank l)) = [] := by
        decide
      have hf : (args.filter fun l => !(matchesCommentOrBlank l)) = args :=
        List.filter_eq_self.mpr (fun l hl => by simp [hkeep l hl])
      rw [hh, hf]
      simp only [List.map_nil, List.nil_append]
      calc args.map pyStrip = args.map id := List.map_congr_left hstrip
        _ = args := List.map_id args
    · have hmarked : gn_args_are_generated gn_args_header = true := by decide
      have hall : gn_args_are_generated (gn_args_header ++ args) = true := by
        unfold gn_args_are_generated at hmarked ⊢
        rw [List.any_append, hmarked]
        rfl
      rw [hall]
      rfl

/-- A hand-written comment line used as an argument. -/
def commentArg : List Char := "# a handwritten comment".data

/-- C9 counterexample: a comment argument that does not carry the
generated-header marker is accepted by the writer but silently dropped
by the reader, so the round trip does not return the argument list. -/
theorem gn_args_roundtrip_counterexample :
    gn_args_are_generated [commentArg] = false ∧
    (write_gn_args [commentArg]).map read_gn_args = some ([], false) ∧
    ([] : List (List Char)) ≠ [commentArg] := by
  refine ⟨by decide, by decide, by decide⟩

/-- A well-formed argument list, as produced by the generator. -/
def argsW : List (List Char) := ["lalala=42".data, "foo_bar=true".data]

/-- C9 witness: the two-argument list round-trips and is reported as not
hand edited. -/
theorem gn_args_roundtrip_witness :
    write_gn_args argsW = some (writeContent argsW) ∧
    read_gn_args (writeContent argsW) = (argsW, false) :=
  gn_args_roundtrip argsW (by decide) (by decide) (by decide) (by decide)

/-- C10: when the target file exists, `write_if_not_exists` leaves the
whole file system — in particular that file's contents — unchanged,
whatever the new contents; only when the file is absent does it write the
given contents, and then it touches no other file. -/
theorem write_if_not_exists_frame (fs : SetupFS) (filename : String)
    (contents : String) :
    (∀ old, fs filename = some old →
      write_if_not_exists fs filename contents = fs) ∧
    (fs filename = none →
      write_if_not_exists fs filename contents filename = some contents ∧
      ∀ p, p ≠ filename → write_if_not_exists fs filename contents p = fs p) := by
  constructor
  · intro old h
    unfold write_if_not_exists
    simp only [h]
  · intro h
    unfold write_if_not_exists
    simp only [h]
    exact ⟨by simp, fun p hp => by simp [hp]⟩

/-- A file system holding only the LASTCHANGE file. -/
def fsW : SetupFS := fun p =>
  if p = "build/util/LASTCHANGE" then some "LASTCHANGE=abc" else none

/-- C10 witness: writing over the existing LASTCHANGE file changes
nothing; writing an absent file stores the contents and leaves the
existing file alone. -/
theorem write_if_not_exists_frame_witness :
    write_if_not_exists fsW "build/util/LASTCHANGE" "other" = fsW ∧
    write_if_not_exists fsW "build/util/LASTCHANGE.committime" "1535518087"
      "build/util/LASTCHANGE.committime" = some "1535518087" ∧
    write_if_not_exists fsW "build/util/LASTCHANGE.committime" "1535518087"
      "build/util/LASTCHANGE" = fsW "build/util/LASTCHANGE" :=
  ⟨(write_if_not_exists_frame fsW "build/util/LASTCHANGE" "other").1
      "LASTCHANGE=abc" (by decide),
   ((write_if_not_exists_frame fsW "build/util/LASTCHANGE.committime"
      "1535518087").2 (by decide)).1,
   ((write_if_not_exists_frame fsW "build/util/LASTCHANGE.committime"
      "1535518087").2 (by decide)).2 "build/util/LASTCHANGE" (by decide)⟩
